import Mathlib

/-!
Verification development for the BigQuery MCP server
(`src/mcp_server_bigquery/server.py`).

The source is shallowly embedded: Python exceptions become `Except String`
(the exception message), the external BigQuery SDK client becomes an oracle
record of functions (`Client`), and the tool dispatcher, catalog, table
validation and HTTP health routing are translated function by function.
-/

namespace MCPBigQuery

/-- Characters that matter for modelling Python repr of strings. -/
def squote : Char := Char.ofNat 39

/-- Double-quote character. -/
def dquote : Char := Char.ofNat 34

/-- Backslash character. -/
def bslash : Char := Char.ofNat 92

/-- Model of how Python repr escapes one character given the chosen quote. -/
def pyEscapeChar (q : Char) (c : Char) : String :=
  if c = bslash then String.mk [bslash, bslash]
  else if c = q then String.mk [bslash, c]
  else if c = Char.ofNat 10 then String.mk [bslash, Char.ofNat 110]
  else if c = Char.ofNat 13 then String.mk [bslash, Char.ofNat 114]
  else if c = Char.ofNat 9 then String.mk [bslash, Char.ofNat 116]
  else String.singleton c

/-- Model of Python repr on a string: single quotes unless the string
contains a single quote and no double quote. -/
def pyReprString (s : String) : String :=
  let q := if s.data.contains squote && !(s.data.contains dquote) then dquote else squote
  String.mk [q] ++ String.join (s.data.map (pyEscapeChar q)) ++ String.mk [q]

/-- Splits a character list at every occurrence of `c`, keeping empty
segments, accumulating the current segment in reverse. -/
def splitOnCharAux (c : Char) : List Char → List Char → List (List Char)
  | [], cur => [cur.reverse]
  | x :: xs, cur =>
    if x = c then cur.reverse :: splitOnCharAux c xs []
    else splitOnCharAux c xs (x :: cur)

/-- Model of the Python call `table_name.split(".")`: dot-separated
components, empty components preserved; never returns an empty list. -/
def pySplitDot (s : String) : List String :=
  (splitOnCharAux (Char.ofNat 46) s.data []).map (fun l => String.mk l)

/-- Model of Python str on a list of strings, as produced by
`str(results)` in the dispatcher's list-tables branch. -/
def pyStrList (l : List String) : String :=
  "[" ++ String.intercalate (", ") (l.map pyReprString) ++ "]"

/-- A BackendRow: mapping from column name to (string-rendered) value,
the shape `execute_query` returns per row. -/
def Row : Type := List (String × String)

instance : DecidableEq Row := by
  unfold Row
  infer_instance

/-- Model of Python str on one result row (a dict). -/
def pyStrRow (r : Row) : String :=
  "\x7b" ++
    String.intercalate (", ")
      (r.map (fun kv => pyReprString kv.1 ++ ": " ++ pyReprString kv.2)) ++
    "\x7d"

/-- Model of Python str on a list of result rows. -/
def pyStrRows (rs : List Row) : String :=
  "[" ++ String.intercalate (", ") (rs.map pyStrRow) ++ "]"

/-- Embedding of `bigquery.ScalarQueryParameter(name, type, value)`. -/
structure ScalarQueryParameter where
  name : String
  paramType : String
  value : String
deriving DecidableEq, Repr

/-- Embedding of the MCP content union; the dispatcher only ever builds
`textContent`. -/
inductive ContentItem where
  | textContent (text : String)
  | imageContent
  | embeddedResource
deriving DecidableEq, Repr

/-- Oracle for the external BigQuery SDK client: each operation either
returns a result or fails with an exception message. -/
structure Client where
  query : String → Except String (List Row)
  queryWithParams : String → List ScalarQueryParameter → Except String (List Row)
  listDatasets : Except String (List String)
  listTablesIn : String → Except String (List String)

/-- Embedding of the `BigQueryDatabase` object after construction: the SDK
client plus the stored dataset allow-list. -/
structure BigQueryDatabase where
  client : Client
  datasets_filter : List String

/-- Embedding of `BigQueryDatabase.execute_query`: run a parameterized
query when `params` is truthy (a non-empty list), a plain query otherwise;
SDK failures propagate (the Python re-raises). -/
def BigQueryDatabase.execute_query (db : BigQueryDatabase) (q : String)
    (params : Option (List ScalarQueryParameter)) : Except String (List Row) :=
  match params with
  | some ps => if ps.isEmpty then db.client.query q else db.client.queryWithParams q ps
  | none => db.client.query q

/-- Embedding of the table-collection loop inside
`BigQueryDatabase.list_tables`: for each dataset id in order, list its
tables, qualify each as `dataset.table`, and concatenate; the first SDK
failure aborts the whole call. -/
def collectTables (client : Client) : List String → Except String (List String)
  | [] => Except.ok []
  | ds :: rest =>
    match client.listTablesIn ds with
    | Except.error e => Except.error e
    | Except.ok dataset_tables =>
      match collectTables client rest with
      | Except.error e => Except.error e
      | Except.ok tables =>
        Except.ok (dataset_tables.map (fun t => ds ++ "." ++ t) ++ tables)

/-- Embedding of `BigQueryDatabase.list_tables`: scan the allow-listed
datasets when `datasets_filter` is non-empty, otherwise all datasets of
the project as reported by the client. -/
def BigQueryDatabase.list_tables (db : BigQueryDatabase) : Except String (List String) :=
  match (if !db.datasets_filter.isEmpty then Except.ok db.datasets_filter
         else db.client.listDatasets : Except String (List String)) with
  | Except.error e => Except.error e
  | Except.ok datasets => collectTables db.client datasets

/-- The INFORMATION_SCHEMA lookup text built by `describe_table` (the
Python triple-quoted f-string, with `dataset_id` interpolated). -/
def ddlQuery (dataset_id : String) : String :=
  "\n            SELECT ddl\n            FROM " ++ dataset_id ++
    ".INFORMATION_SCHEMA.TABLES\n            WHERE table_name = @table_name;\n        "

/-- Embedding of `BigQueryDatabase.describe_table`: split the name on
dots, reject unless exactly 2 or 3 components, then look the table up with
a parameterized query where the dataset id is every component but the last
re-joined with dots and the table id is the last component. -/
def BigQueryDatabase.describe_table (db : BigQueryDatabase) (table_name : String) :
    Except String (List Row) :=
  let parts := pySplitDot table_name
  if parts.length ≠ 2 ∧ parts.length ≠ 3 then
    Except.error ("Invalid table name: " ++ table_name)
  else
    let dataset_id := String.intercalate (".") parts.dropLast
    let table_id := parts.getLast?.getD ("")
    db.execute_query (ddlQuery dataset_id)
      (some [⟨"table_name", "STRING", table_id⟩])

/-- One property entry of a tool's input schema. -/
structure ToolProperty where
  name : String
  propType : String
  description : String
deriving DecidableEq, Repr

/-- Input schema of a tool descriptor; `required` is `none` when the
schema carries no required key at all (the list-tables schema). -/
structure InputSchema where
  schemaType : String
  properties : List ToolProperty
  required : Option (List String)
deriving DecidableEq, Repr

/-- Embedding of `types.Tool`. -/
structure Tool where
  name : String
  description : String
  inputSchema : InputSchema
deriving DecidableEq, Repr

/-- Embedding of `handle_list_tools`: the fixed three-tool catalog; the
`Unit` argument stands for one catalog-list request. -/
def handle_list_tools (_req : Unit) : List Tool :=
  [⟨"execute-query",
    "Execute a SELECT query on the BigQuery database",
    ⟨"object",
     [⟨"query", "string", "SELECT SQL query to execute using BigQuery dialect"⟩],
     some ["query"]⟩⟩,
   ⟨"list-tables",
    "List all tables in the BigQuery database",
    ⟨"object", [], none⟩⟩,
   ⟨"describe-table",
    "Get the schema information for a specific table",
    ⟨"object",
     [⟨"table_name", "string", "Name of the table to describe (e.g. my_dataset.my_table)"⟩],
     some ["table_name"]⟩⟩]

/-- Looks a key up in the optional argument mapping; `none` exactly when
the Python guard `not arguments or key not in arguments` fires (an absent
mapping, an empty mapping, or a mapping without the key). -/
def lookupArg (arguments : Option (List (String × String))) (key : String) : Option String :=
  match arguments with
  | none => none
  | some args => args.lookup key

/-- The body of the `try` block in `handle_call_tool`: route on the tool
name; raised exceptions (validation and backend) are `Except.error`. -/
def dispatchInner (db : BigQueryDatabase) (name : String)
    (arguments : Option (List (String × String))) : Except String (List ContentItem) :=
  if name = "list-tables" then
    match db.list_tables with
    | Except.ok results => Except.ok [ContentItem.textContent (pyStrList results)]
    | Except.error e => Except.error e
  else if name = "describe-table" then
    match lookupArg arguments ("table_name") with
    | none => Except.error ("Missing table_name argument")
    | some table_name =>
      match db.describe_table table_name with
      | Except.ok results => Except.ok [ContentItem.textContent (pyStrRows results)]
      | Except.error e => Except.error e
  else if name = "execute-query" then
    match lookupArg arguments ("query") with
    | none => Except.error ("Missing query argument")
    | some q =>
      match db.execute_query q none with
      | Except.ok results => Except.ok [ContentItem.textContent (pyStrRows results)]
      | Except.error e => Except.error e
  else Except.error ("Unknown tool: " ++ name)

/-- Embedding of `handle_call_tool`: run the routed body and convert any
raised exception into a single `"Error: "`-prefixed text item. -/
def handle_call_tool (db : BigQueryDatabase) (name : String)
    (arguments : Option (List (String × String))) : List ContentItem :=
  match dispatchInner db name arguments with
  | Except.ok items => items
  | Except.error e => [ContentItem.textContent ("Error: " ++ e)]

/-- Embedding of `service_account.Credentials`: kept abstract as the file
path it was loaded from. -/
structure Credentials where
  source : String
deriving DecidableEq, Repr

/-- Oracle for the external pieces `BigQueryDatabase.__init__` touches:
loading a service-account key file (which may fail with a message) and
constructing the SDK client. -/
structure BQEnv where
  loadServiceAccount : String → Except String Credentials
  mkClient : Option Credentials → String → String → Client

/-- Construction failures, tagged by the site that raised the Python
`ValueError`. -/
inductive InitError where
  | configuration (msg : String)
  | credential (msg : String)
deriving DecidableEq, Repr

/-- Embedding of `BigQueryDatabase.__init__`: reject a falsy (empty)
project or location, then, when a truthy key file is supplied, load the
credentials and fail on an unusable file; only then build the client. -/
def BigQueryDatabase.init (env : BQEnv) (project location : String)
    (key_file : Option String) (datasets_filter : List String) :
    Except InitError BigQueryDatabase :=
  if project = "" then Except.error (InitError.configuration ("Project is required"))
  else if location = "" then Except.error (InitError.configuration ("Location is required"))
  else
    match (match key_file with
           | some kf =>
             if kf = "" then Except.ok none
             else
               match env.loadServiceAccount kf with
               | Except.ok c => Except.ok (some c)
               | Except.error e =>
                 Except.error (InitError.credential ("Invalid key file: " ++ e))
           | none => Except.ok none : Except InitError (Option Credentials)) with
    | Except.error e => Except.error e
    | Except.ok credentials =>
      Except.ok ⟨env.mkClient credentials project location, datasets_filter⟩

/-- An HTTP request as far as the routing table cares: method and path. -/
structure HttpRequest where
  method : String
  path : String
deriving DecidableEq, Repr

/-- Embedding of `JSONResponse` as Starlette builds it for the health
handler: default status 200 plus the JSON object fields. -/
structure JSONResponse where
  status_code : Nat
  body : List (String × String)
deriving DecidableEq, Repr

/-- Embedding of `handle_health`: a fixed healthy response, computed
without consulting the database at all. -/
def handle_health (_request : HttpRequest) : JSONResponse :=
  ⟨200, [("status", "healthy"), ("service", "bigquery-mcp-server")]⟩

/-- The endpoints the Starlette routes can target. -/
inductive Endpoint where
  | health
  | sse
  | messagesPost
deriving DecidableEq, Repr

/-- One Starlette route: path, allowed methods (GET is the default when
the source names none), endpoint. -/
structure AppRoute where
  path : String
  methods : List String
  endpoint : Endpoint
deriving DecidableEq, Repr

/-- The route table of the Starlette app, in source order. -/
def appRoutes : List AppRoute :=
  [⟨"/", ["GET"], Endpoint.health⟩,
   ⟨"/health", ["GET"], Endpoint.health⟩,
   ⟨"/messages", ["GET"], Endpoint.sse⟩,
   ⟨"/messages", ["POST"], Endpoint.messagesPost⟩]

/-- First-match routing over the route table, as Starlette dispatches. -/
def routeOf (method path : String) : Option Endpoint :=
  (appRoutes.find? (fun r => r.path == path && r.methods.contains method)).map
    AppRoute.endpoint

/-- A trivial SDK client used to instantiate theorems at concrete inputs. -/
def sampleClient : Client where
  query := fun _ => Except.ok []
  queryWithParams := fun _ _ => Except.ok []
  listDatasets := Except.ok []
  listTablesIn := fun _ => Except.ok []

/-- A database over the trivial client with an empty allow-list. -/
def sampleDb : BigQueryDatabase := ⟨sampleClient, []⟩

/-- An SDK client whose dataset `ds1` holds tables `t1` and `t2`. -/
def clientDs1 : Client where
  query := fun _ => Except.ok []
  queryWithParams := fun _ _ => Except.ok []
  listDatasets := Except.ok ["ds1"]
  listTablesIn := fun ds =>
    if ds = "ds1" then Except.ok ["t1", "t2"] else Except.error ("dataset not found")

/-- A database scoped to `["ds1"]` over `clientDs1`. -/
def dbDs1 : BigQueryDatabase := ⟨clientDs1, ["ds1"]⟩

/-- An environment whose key files never load, for construction-failure
instances. -/
def sampleEnv : BQEnv where
  loadServiceAccount := fun _ => Except.error ("could not parse key")
  mkClient := fun _ _ _ => sampleClient

end MCPBigQuery

namespace MCPBigQuery

/-- Helper: whatever branch of the dispatcher's try-block succeeds, the
returned content list is a single text item. -/
theorem dispatchInner_ok_singleton (db : BigQueryDatabase) (name : String)
    (args : Option (List (String × String))) (items : List ContentItem)
    (h : dispatchInner db name args = Except.ok items) :
    ∃ t : String, items = [ContentItem.textContent t] := by
  unfold dispatchInner at h
  split at h <;> (try split at h) <;> (try split at h) <;>
      (try split at h) <;> (try split at h) <;>
    first
      | exact ⟨_, by injection h with h; exact h.symm⟩
      | exact Except.noConfusion h

/-- Claim C1: for every tool name and every argument mapping (including
an absent one), `handle_call_tool` returns exactly one `ContentItem` and
it is a `textContent`; every failure raised inside the dispatch body is
caught at the boundary and converted into a single text item whose text
is `Error: ` followed by the failure message, and the dispatcher (a total
function here) never raises past its own boundary. -/
theorem dispatch_total (db : BigQueryDatabase) (name : String)
    (args : Option (List (String × String))) :
    (∃ t : String, handle_call_tool db name args = [ContentItem.textContent t]) ∧
    (∀ e : String, dispatchInner db name args = Except.error e →
      handle_call_tool db name args = [ContentItem.textContent ("Error: " ++ e)]) := by
  constructor
  · unfold handle_call_tool
    cases hd : dispatchInner db name args with
    | ok items =>
      obtain ⟨t, ht⟩ := dispatchInner_ok_singleton db name args items hd
      exact ⟨t, by rw [ht]⟩
    | error e => exact ⟨"Error: " ++ e, rfl⟩
  · intro e he
    unfold handle_call_tool
    rw [he]

/-- Witness for C1 at the concrete failing call `frobnicate`. -/
theorem dispatch_total_witness :
    handle_call_tool sampleDb ("frobnicate") none
      = [ContentItem.textContent ("Error: Unknown tool: frobnicate")] :=
  (dispatch_total sampleDb ("frobnicate") none).2 ("Unknown tool: frobnicate") rfl

/-- Helper: a name that does not split into 2 or 3 dot-separated
components makes `describe_table` raise the invalid-name error. -/
theorem describe_table_invalid_of (db : BigQueryDatabase) (tn : String)
    (h2 : (pySplitDot tn).length ≠ 2) (h3 : (pySplitDot tn).length ≠ 3) :
    db.describe_table tn = Except.error ("Invalid table name: " ++ tn) := by
  unfold BigQueryDatabase.describe_table
  rw [if_pos ⟨h2, h3⟩]

/-- Helper: a name with 2 or 3 dot-separated components makes
`describe_table` proceed to the parameterized INFORMATION_SCHEMA lookup
whose dataset id re-joins all components but the last and whose table id
is the last component. -/
theorem describe_table_valid_of (db : BigQueryDatabase) (tn : String)
    (h : (pySplitDot tn).length = 2 ∨ (pySplitDot tn).length = 3) :
    db.describe_table tn = db.execute_query
      (ddlQuery (String.intercalate (".") (pySplitDot tn).dropLast))
      (some [⟨"table_name", "STRING", (pySplitDot tn).getLast?.getD ("")⟩]) := by
  unfold BigQueryDatabase.describe_table
  rw [if_neg]
  rintro ⟨h2, h3⟩
  cases h with
  | inl h => exact h2 h
  | inr h => exact h3 h

/-- Helper: when the argument lookup finds a table name, dispatching
`describe-table` reduces to rendering the outcome of `describe_table`. -/
theorem handle_describe_of_lookup (db : BigQueryDatabase)
    (args : Option (List (String × String))) (tn : String)
    (h : lookupArg args ("table_name") = some tn) :
    handle_call_tool db ("describe-table") args =
      (match db.describe_table tn with
       | Except.ok results => [ContentItem.textContent (pyStrRows results)]
       | Except.error e => [ContentItem.textContent ("Error: " ++ e)]) := by
  unfold handle_call_tool dispatchInner
  rw [if_neg (by decide), if_pos rfl, h]
  dsimp only
  cases db.describe_table tn <;> rfl

/-- Claim C2: a qualified name that does not split into exactly 2 or 3
dot-separated components makes `describe_table` fail with the
invalid-name error; dispatching `describe-table` on `a.b.c.d` yields a
single error item whose text contains `Invalid table name`; and on a
2- or 3-component name the lookup is a parameterized query whose dataset
id is all components but the last joined with dots and whose table id is
the last component. -/
theorem describe_table_validation :
    (∀ (db : BigQueryDatabase) (tn : String),
      (pySplitDot tn).length ≠ 2 → (pySplitDot tn).length ≠ 3 →
      db.describe_table tn = Except.error ("Invalid table name: " ++ tn)) ∧
    (∀ db : BigQueryDatabase,
      handle_call_tool db ("describe-table") (some [("table_name", "a.b.c.d")])
        = [ContentItem.textContent ("Error: Invalid table name: a.b.c.d")]) ∧
    (∀ (db : BigQueryDatabase) (tn : String),
      (pySplitDot tn).length = 2 ∨ (pySplitDot tn).length = 3 →
      db.describe_table tn = db.execute_query
        (ddlQuery (String.intercalate (".") (pySplitDot tn).dropLast))
        (some [⟨"table_name", "STRING", (pySplitDot tn).getLast?.getD ("")⟩])) := by
  refine ⟨describe_table_invalid_of, fun db => ?_, describe_table_valid_of⟩
  rw [handle_describe_of_lookup db (some [("table_name", "a.b.c.d")]) ("a.b.c.d") rfl,
    describe_table_invalid_of db ("a.b.c.d") (by decide) (by decide)]
  rfl

/-- Witness for C2 at the 4-component name `a.b.c.d` and the 2-component
name `a.b`. -/
theorem describe_table_validation_witness :
    sampleDb.describe_table ("a.b.c.d") = Except.error ("Invalid table name: a.b.c.d") ∧
    sampleDb.describe_table ("a.b") = sampleDb.execute_query (ddlQuery ("a"))
      (some [⟨"table_name", "STRING", "b"⟩]) :=
  ⟨describe_table_validation.1 sampleDb ("a.b.c.d") (by decide) (by decide),
   describe_table_validation.2.2 sampleDb ("a.b") (Or.inl (by decide))⟩

/-- Claim C3: dispatching `describe-table` when the argument lookup finds
no `table_name` yields exactly the text `Error: Missing table_name
argument`, and `execute-query` without `query` yields `Error: Missing
query argument`; the result is the same for every database, so no backend
operation is consulted. -/
theorem missing_argument_errors :
    (∀ (db : BigQueryDatabase) (args : Option (List (String × String))),
      lookupArg args ("table_name") = none →
      handle_call_tool db ("describe-table") args
        = [ContentItem.textContent ("Error: Missing table_name argument")]) ∧
    (∀ (db : BigQueryDatabase) (args : Option (List (String × String))),
      lookupArg args ("query") = none →
      handle_call_tool db ("execute-query") args
        = [ContentItem.textContent ("Error: Missing query argument")]) := by
  constructor
  · intro db args h
    unfold handle_call_tool dispatchInner
    rw [if_neg (by decide), if_pos rfl, h]
    rfl
  · intro db args h
    unfold handle_call_tool dispatchInner
    rw [if_neg (by decide), if_neg (by decide), if_pos rfl, h]
    rfl

/-- Witness for C3 at an absent mapping and at an empty mapping. -/
theorem missing_argument_errors_witness :
    handle_call_tool sampleDb ("describe-table") none
      = [ContentItem.textContent ("Error: Missing table_name argument")] ∧
    handle_call_tool sampleDb ("execute-query") (some [])
      = [ContentItem.textContent ("Error: Missing query argument")] :=
  ⟨missing_argument_errors.1 sampleDb none rfl,
   missing_argument_errors.2 sampleDb (some []) rfl⟩

/-- Claim C4: every tool name other than the three known ones dispatches,
for every database and argument mapping, to exactly one text item reading
`Error: Unknown tool: ` followed by the name. -/
theorem unknown_tool_error (db : BigQueryDatabase) (name : String)
    (args : Option (List (String × String)))
    (h1 : name ≠ "list-tables") (h2 : name ≠ "describe-table")
    (h3 : name ≠ "execute-query") :
    handle_call_tool db name args
      = [ContentItem.textContent ("Error: Unknown tool: " ++ name)] := by
  unfold handle_call_tool dispatchInner
  rw [if_neg h1, if_neg h2, if_neg h3]
  rfl

/-- Witness for C4 at the tool name `frobnicate`. -/
theorem unknown_tool_error_witness :
    handle_call_tool dbDs1 ("frobnicate") (some [("x", "y")])
      = [ContentItem.textContent ("Error: Unknown tool: frobnicate")] :=
  unknown_tool_error dbDs1 ("frobnicate") (some [("x", "y")])
    (by decide) (by decide) (by decide)

/-- Helper: when listing every dataset of a list succeeds, the collected
tables are the dataset-qualified table names concatenated in dataset
order. -/
theorem collectTables_ok (client : Client) (tbls : String → List String)
    (l : List String)
    (hok : ∀ ds ∈ l, client.listTablesIn ds = Except.ok (tbls ds)) :
    collectTables client l =
      Except.ok ((l.map (fun ds => (tbls ds).map (fun t => ds ++ "." ++ t))).flatten) := by
  induction l with
  | nil => rfl
  | cons ds rest ih =>
    unfold collectTables
    rw [hok ds (List.mem_cons_self ds rest),
      ih (fun d hd => hok d (List.mem_cons_of_mem ds hd))]
    simp

/-- Claim C5: `list_tables` enumerates tables only from the allow-listed
datasets when the allow-list is non-empty and from all datasets of the
project when it is empty; each returned name joins the dataset id to the
table id with a dot, and the result concatenates the per-dataset
sequences in dataset order. -/
theorem list_tables_scope (db : BigQueryDatabase) (allDatasets : List String)
    (tbls : String → List String)
    (hds : db.client.listDatasets = Except.ok allDatasets)
    (hok : ∀ ds ∈ (if db.datasets_filter ≠ [] then db.datasets_filter else allDatasets),
      db.client.listTablesIn ds = Except.ok (tbls ds)) :
    db.list_tables = Except.ok
      (((if db.datasets_filter ≠ [] then db.datasets_filter else allDatasets).map
        (fun ds => (tbls ds).map (fun t => ds ++ "." ++ t))).flatten) := by
  by_cases hf : db.datasets_filter = []
  · rw [if_neg (fun hne => hne hf)] at hok ⊢
    unfold BigQueryDatabase.list_tables
    rw [hf, hds]
    exact collectTables_ok db.client tbls allDatasets hok
  · rw [if_pos hf] at hok ⊢
    unfold BigQueryDatabase.list_tables
    cases hfe : db.datasets_filter with
    | nil => exact absurd hfe hf
    | cons a l =>
      rw [hfe] at hok
      exact collectTables_ok db.client tbls (a :: l) hok

/-- Witness for C5 on the database scoped to `ds1`. -/
theorem list_tables_scope_witness :
    dbDs1.list_tables = Except.ok ["ds1.t1", "ds1.t2"] := by
  have h := list_tables_scope dbDs1 ["ds1"] (fun _ => ["t1", "t2"]) rfl
    (by intro ds hds; simp [dbDs1] at hds; subst hds; rfl)
  simpa [dbDs1] using h

/-- Claim C6: dispatching `list-tables` on backend success yields one
text item carrying the deterministic, order-preserving Python rendering
of the returned names; in particular `["ds1.t1", "ds1.t2"]` renders
verbatim in order. -/
theorem list_tables_render :
    (∀ (db : BigQueryDatabase) (args : Option (List (String × String)))
      (names : List String),
      db.list_tables = Except.ok names →
      handle_call_tool db ("list-tables") args
        = [ContentItem.textContent (pyStrList names)]) ∧
    handle_call_tool dbDs1 ("list-tables") none
      = [ContentItem.textContent ("[\x27ds1.t1\x27, \x27ds1.t2\x27]")] := by
  constructor
  · intro db args names h
    unfold handle_call_tool dispatchInner
    rw [if_pos rfl, h]
  · decide

/-- Witness for C6 on the database scoped to `ds1`. -/
theorem list_tables_render_witness :
    handle_call_tool dbDs1 ("list-tables") (some [])
      = [ContentItem.textContent (pyStrList ["ds1.t1", "ds1.t2"])] :=
  list_tables_render.1 dbDs1 (some []) ["ds1.t1", "ds1.t2"] rfl

/-- Claim C7: every catalog-list request returns the same three tool
descriptors in the fixed order execute-query, list-tables,
describe-table, where execute-query has one required string field
`query`, list-tables has no fields, and describe-table has one required
string field `table_name`; repeated requests return identical results. -/
theorem catalog_fixed :
    (∀ u v : Unit, handle_list_tools u = handle_list_tools v) ∧
    (handle_list_tools ()).map Tool.name
      = ["execute-query", "list-tables", "describe-table"] ∧
    (handle_list_tools ()).map
        (fun t => (t.inputSchema.properties.map (fun p => (p.name, p.propType)),
                   t.inputSchema.required))
      = [([("query", "string")], some ["query"]),
         ([], none),
         ([("table_name", "string")], some ["table_name"])] :=
  ⟨fun _ _ => rfl, by decide, by decide⟩

/-- Claim C8: construction fails with a configuration error when the
project or the location is missing (falsy), fails with a credential
error when a non-empty key file is supplied but does not load, and
otherwise succeeds; all three outcomes are decided inside `init` itself,
before any backend operation exists to be called. -/
theorem init_validation (env : BQEnv) (project location : String)
    (key_file : Option String) (datasets_filter : List String) :
    (project = "" →
      BigQueryDatabase.init env project location key_file datasets_filter
        = Except.error (InitError.configuration ("Project is required"))) ∧
    (project ≠ "" → location = "" →
      BigQueryDatabase.init env project location key_file datasets_filter
        = Except.error (InitError.configuration ("Location is required"))) ∧
    (∀ kf e, project ≠ "" → location ≠ "" → key_file = some kf → kf ≠ "" →
      env.loadServiceAccount kf = Except.error e →
      BigQueryDatabase.init env project location key_file datasets_filter
        = Except.error (InitError.credential ("Invalid key file: " ++ e))) ∧
    (project ≠ "" → location ≠ "" → key_file = none →
      BigQueryDatabase.init env project location key_file datasets_filter
        = Except.ok ⟨env.mkClient none project location, datasets_filter⟩) := by
  refine ⟨?_, ?_, ?_, ?_⟩
  · intro hp
    unfold BigQueryDatabase.init
    rw [if_pos hp]
  · intro hp hl
    unfold BigQueryDatabase.init
    rw [if_neg hp, if_pos hl]
  · intro kf e hp hl hk hkf he
    unfold BigQueryDatabase.init
    rw [if_neg hp, if_neg hl, hk]
    dsimp only
    rw [if_neg hkf, he]
  · intro hp hl hk
    unfold BigQueryDatabase.init
    rw [if_neg hp, if_neg hl, hk]

/-- Witness for C8: missing project, missing location, and an unusable
key file, each at concrete inputs. -/
theorem init_validation_witness :
    BigQueryDatabase.init sampleEnv ("") ("loc") none []
      = Except.error (InitError.configuration ("Project is required")) ∧
    BigQueryDatabase.init sampleEnv ("p") ("") none []
      = Except.error (InitError.configuration ("Location is required")) ∧
    BigQueryDatabase.init sampleEnv ("p") ("loc") (some ("key.json")) []
      = Except.error (InitError.credential ("Invalid key file: could not parse key")) :=
  ⟨(init_validation sampleEnv ("") ("loc") none []).1 rfl,
   (init_validation sampleEnv ("p") ("") none []).2.1 (by decide) rfl,
   (init_validation sampleEnv ("p") ("loc") (some ("key.json")) []).2.2.1 ("key.json")
     ("could not parse key") (by decide) (by decide) rfl (by decide) rfl⟩

/-- Claim C9: every GET request for `/` or `/health` routes to the health
handler, which returns status 200 with the fixed JSON body mapping
`status` to `healthy` and `service` to the service name; the handler
takes no database and returns the same response for every request, so
backend health cannot influence it. -/
theorem health_endpoint (req : HttpRequest)
    (hm : req.method = "GET") (hp : req.path = "/" ∨ req.path = "/health") :
    routeOf req.method req.path = some Endpoint.health ∧
    handle_health req = ⟨200, [("status", "healthy"), ("service", "bigquery-mcp-server")]⟩ ∧
    ∀ req2 : HttpRequest, handle_health req = handle_health req2 := by
  refine ⟨?_, rfl, fun req2 => rfl⟩
  rw [hm]
  cases hp with
  | inl h => rw [h]; decide
  | inr h => rw [h]; decide

/-- Witness for C9 at a GET request for `/health`. -/
theorem health_endpoint_witness :
    routeOf ("GET") ("/health") = some Endpoint.health ∧
    handle_health ⟨"GET", "/health"⟩
      = ⟨200, [("status", "healthy"), ("service", "bigquery-mcp-server")]⟩ ∧
    ∀ req2 : HttpRequest, handle_health ⟨"GET", "/health"⟩ = handle_health req2 :=
  health_endpoint ⟨"GET", "/health"⟩ rfl (Or.inr rfl)

/-- Claim C10: the describe-table validation only counts dot-separated
components and never checks that a component is non-empty: every name
splitting into exactly 2 or 3 components proceeds to the lookup, and in
particular `.t`, `a..b` and `a.b.` are not rejected, the table id being
allowed to be the empty string. -/
theorem describe_table_counts_only :
    (∀ (db : BigQueryDatabase) (tn : String),
      (pySplitDot tn).length = 2 ∨ (pySplitDot tn).length = 3 →
      db.describe_table tn = db.execute_query
        (ddlQuery (String.intercalate (".") (pySplitDot tn).dropLast))
        (some [⟨"table_name", "STRING", (pySplitDot tn).getLast?.getD ("")⟩])) ∧
    (∀ db : BigQueryDatabase,
      db.describe_table (".t") = db.execute_query (ddlQuery (""))
        (some [⟨"table_name", "STRING", "t"⟩])) ∧
    (∀ db : BigQueryDatabase,
      db.describe_table ("a..b") = db.execute_query (ddlQuery ("a."))
        (some [⟨"table_name", "STRING", "b"⟩])) ∧
    (∀ db : BigQueryDatabase,
      db.describe_table ("a.b.") = db.execute_query (ddlQuery ("a.b"))
        (some [⟨"table_name", "STRING", ""⟩])) :=
  ⟨describe_table_valid_of, fun _ => rfl, fun _ => rfl, fun _ => rfl⟩

/-- Witness for C10 at the empty-dataset-component name `.t`. -/
theorem describe_table_counts_only_witness :
    sampleDb.describe_table (".t") = sampleDb.execute_query (ddlQuery (""))
      (some [⟨"table_name", "STRING", "t"⟩]) :=
  describe_table_counts_only.1 sampleDb (".t") (Or.inl (by decide))

end MCPBigQuery
